import Mathlib

/-
Verification of the rtctree manager / name-server node layer
(src/rtctree/manager.py and src/rtctree/nameserver.py) through a shallow
embedding in Lean 4.

Conventions of the embedding:
- Python strings are Lean String values, except in the address-resolution
  model (NameServer._parse_address) where they are List Char so that the
  prefix and replacement logic can be reasoned about structurally.
- Remote CORBA objects are modelled by the finite set of outcomes the code
  distinguishes: a listing call either returns its list or raises the one
  exception type the code catches; a profile fetch either returns a
  property dictionary (an association list) or raises CORBA.TRANSIENT with
  a ConnectFailed or other minor code; status-returning calls return an
  RTC return code.
- Raising an exception is modelled with Except / Option error components;
  statements after a raise do not run, so a function that can raise
  returns the state it had at the raise point.
- Writes to stderr are collected in a List Warning component.
- TreeNode itself (node.py) is not part of the sources; the few facts about
  it that the manager code relies on (_add_child appends a child in listing
  order, reparse drops all children and re-runs _parse) are modelled from
  the spec and marked as such.
-/

set_option autoImplicit false

namespace RtcTree

/-! ## NameServer._parse_address (src/rtctree/nameserver.py, lines 81-102) -/

/--
Model of Python str.replace for a non-empty pattern: leftmost,
non-overlapping replacement, scanning resumes after the replaced text.
The first Nat argument counts pattern characters still to be skipped after
a match was found at an earlier position.  (Python str.replace with an
empty pattern behaves differently, but _parse_address only ever replaces
the non-empty protocol tokens.)
-/
def replaceAllGo (pat rep : List Char) : Nat → List Char → List Char
  | _, [] => []
  | Nat.succ skip, _ :: rest => replaceAllGo pat rep skip rest
  | 0, c :: rest =>
    if pat.isPrefixOf (c :: rest) then
      rep ++ replaceAllGo pat rep (pat.length - 1) rest
    else
      c :: replaceAllGo pat rep 0 rest

/-- Python address.replace(pat, rep): replace every occurrence of pat. -/
def replaceAll (pat rep s : List Char) : List Char :=
  replaceAllGo pat rep 0 s

/-- The protocols_m_str dictionary, in its insertion (iteration) order. -/
def protocols_m_str : List (List Char × List Char) :=
  [("iiop:".data, "corbaloc:iiop:".data),
   ("ssliop:".data, "corbaloc:ssliop:".data),
   ("diop:".data, "corbaloc:diop:".data),
   ("shmiop:".data, "corbaloc:shmiop:".data),
   ("htiop:".data, "corbaloc:htiop:".data)]

/-- The protocols_v_str list. -/
def protocols_v_str : List (List Char) :=
  ["http://".data, "https://".data, "ws://".data, "wss://".data]

/--
The first for-loop of _parse_address: find the first protocol key that is
a prefix of the address (Python address.find(k) == 0).
-/
def find_protocol : List (List Char × List Char) → List Char → Option (List Char × List Char)
  | [], _ => none
  | kv :: rest, addr =>
    if kv.1.isPrefixOf addr then some kv else find_protocol rest addr

/-- The second for-loop of _parse_address over the web-scheme prefixes. -/
def find_v_protocol : List (List Char) → List Char → Bool
  | [], _ => false
  | p :: rest, addr =>
    if p.isPrefixOf addr then true else find_v_protocol rest addr

/--
NameServer._parse_address: translate a logical name-server address into a
CORBA connection string.
-/
def parse_address (address : List Char) : List Char :=
  match find_protocol protocols_m_str address with
  | some kv => replaceAll kv.1 kv.2 address ++ "/NameService".data
  | none =>
    if find_v_protocol protocols_v_str address then
      address ++ "#NameService".data
    else
      "corbaloc::".data ++ address ++ "/NameService".data

/-! ## Manager child parsing (src/rtctree/manager.py) -/

/-- Discriminator for the node subtypes a Manager constructs as children. -/
inductive NodeKind where
  | component
  | manager
deriving DecidableEq

/--
A child node as far as these claims observe it: the name passed to the
node constructor and the node subtype.  (Component internals and the
recursive parse of a slave Manager are out of scope of the claims.)
-/
structure Child where
  name : String
  kind : NodeKind
deriving DecidableEq

/-- Exceptions that escape the manager parsing code. -/
inductive RtcError where
  | transientOther
deriving DecidableEq

/-- Messages the parsing code prints to stderr. -/
inductive Warning where
  | badParamComponents
  | zombieSlave (mgrName : String)
deriving DecidableEq

/-- Outcome of m.get_profile() on a listed slave manager. -/
inductive ProfileResult where
  | ok (props : List (String × String))
  | transientConnectFailed
  | transientOther
deriving DecidableEq

/-- A slave manager entry as returned by get_slave_managers. -/
structure SlaveEntry where
  get_profile : ProfileResult
deriving DecidableEq

/-- A component entry: its profile carries the instance_name. -/
structure CompEntry where
  instance_name : String
deriving DecidableEq

/-- Outcome of self._obj.get_components(). -/
inductive CompsResult where
  | ok (cs : List CompEntry)
  | badParam
deriving DecidableEq

/-- Outcome of self._obj.get_slave_managers(). -/
inductive MgrsResult where
  | ok (ms : List SlaveEntry)
  | badOperation
deriving DecidableEq

/-- The remote answers a single parse pass observes. -/
structure Remote where
  get_components : CompsResult
  get_slave_managers : MgrsResult
deriving DecidableEq

/--
The for-loop of Manager._parse_manager_children (lines 477-496): walk the
slave listing keeping the synthetic-name counter index; a
TRANSIENT-ConnectFailed profile fetch prints a zombie warning and skips
the entry; any other TRANSIENT minor code re-raises, aborting the loop;
otherwise the child is named by the name profile key when present, else
slave-index (and only then is index incremented).  Returns the children
added via _add_child in order, the warnings printed, and the escaping
exception if any.
-/
def parse_manager_loop (mgrName : String) : List SlaveEntry → Nat →
    List Child × List Warning × Option RtcError
  | [], _ => ([], [], none)
  | m :: rest, index =>
    match m.get_profile with
    | ProfileResult.transientConnectFailed =>
      let r := parse_manager_loop mgrName rest index
      (r.1, Warning.zombieSlave mgrName :: r.2.1, r.2.2)
    | ProfileResult.transientOther => ([], [], some RtcError.transientOther)
    | ProfileResult.ok props =>
      match List.lookup "name" props with
      | some nm =>
        let r := parse_manager_loop mgrName rest index
        (⟨nm, NodeKind.manager⟩ :: r.1, r.2.1, r.2.2)
      | none =>
        let r := parse_manager_loop mgrName rest (index + 1)
        (⟨"slave" ++ Nat.repr index, NodeKind.manager⟩ :: r.1, r.2.1, r.2.2)

/--
Manager._parse_manager_children (lines 469-496): a CORBA.BAD_OPERATION
from get_slave_managers means the peer has no slave-manager support and is
ignored silently; otherwise the listing is walked with the counter at 0.
-/
def parse_manager_children (mgrName : String) (r : MgrsResult) :
    List Child × List Warning × Option RtcError :=
  match r with
  | MgrsResult.badOperation => ([], [], none)
  | MgrsResult.ok ms => parse_manager_loop mgrName ms 0

/--
Manager._parse_component_children (lines 452-467): a CORBA.BAD_PARAM from
get_components is caught, printed, and parsing returns with no component
children; otherwise each listed component becomes a child named
instance_name plus the literal suffix .rtc.
-/
def parse_component_children (r : CompsResult) : List Child × List Warning :=
  match r with
  | CompsResult.badParam => ([], [Warning.badParamComponents])
  | CompsResult.ok cs =>
    (cs.map (fun c => ⟨c.instance_name ++ ".rtc", NodeKind.component⟩), [])

/-- Counts the listed slave entries whose profile fetch succeeds. -/
def okCount : List SlaveEntry → Nat
  | [] => 0
  | m :: rest =>
    match m.get_profile with
    | ProfileResult.ok _ => okCount rest + 1
    | _ => okCount rest

/--
Counts the listed slave entries whose profile fetch succeeds and whose
properties have no name key: exactly the entries that consume a synthetic
slave-index name.
-/
def unnamedCount : List SlaveEntry → Nat
  | [] => 0
  | m :: rest =>
    match m.get_profile with
    | ProfileResult.ok props =>
      match List.lookup "name" props with
      | some _ => unnamedCount rest
      | none => unnamedCount rest + 1
    | _ => unnamedCount rest

/-! ## Manager cached state and the parse / reparse protocol -/

/--
The mutable state of a Manager node that these claims observe: its name,
its child collection, and the lazily populated cache fields set to None by
_parse.
-/
structure MgrState where
  name : String
  children : List Child
  components : Option (List Child)
  configuration : Option (List (String × String))
  profile : Option (List (String × String))
  factory_profiles : Option (List (List (String × String)))
  loadable_modules : Option (List (List (String × String)))
  loaded_modules : Option (List (List (String × String)))
  masters : Option (List Child)
  slaves : Option (List Child)
deriving DecidableEq

/--
Manager._parse_children (lines 446-450): parse component children first,
then manager children.  Children are appended in construction order.
Modelled from the spec: TreeNode._add_child (node.py, not under src/)
stores each constructed child in the children collection in listing
order, names being unique among siblings.
-/
def parse_children (s : MgrState) (rem : Remote) :
    MgrState × List Warning × Option RtcError :=
  let cc := parse_component_children rem.get_components
  let mc := parse_manager_children s.name rem.get_slave_managers
  ({ s with children := s.children ++ cc.1 ++ mc.1 }, cc.2 ++ mc.2.1, mc.2.2)

/-- The cache resets performed by Manager._parse (lines 433-443). -/
def clear_caches (s : MgrState) : MgrState :=
  { s with
      components := none
      configuration := none
      profile := none
      factory_profiles := none
      loadable_modules := none
      loaded_modules := none
      masters := none
      slaves := none }

/--
Manager._parse (lines 433-444): reset every cached view to the unfetched
sentinel, then rebuild the child lists.
-/
def parse (s : MgrState) (rem : Remote) :
    MgrState × List Warning × Option RtcError :=
  parse_children (clear_caches s) rem

/--
Modelled from the spec: TreeNode.reparse (node.py, not under src/).  Spec
4.1: a reparse re-resolves the remote child listings, existing child
objects are not reused, and a child whose remote entry is gone is dropped
- so the child collection is emptied and rebuilt by _parse, while cached
views are reset to the unfetched sentinel by _parse itself.
-/
def reparse (s : MgrState) (rem : Remote) :
    MgrState × List Warning × Option RtcError :=
  parse { s with children := [] } rem

/-! ## Manager accessors (masters, slaves) and set_config_parameter -/

/-- Python truthiness of an optional list: None and the empty list are falsy. -/
def py_truthy : Option (List Child) → Bool
  | none => false
  | some l => !l.isEmpty

/-- Exceptions raised by accessor properties. -/
inductive PyException where
  | notImplementedError
deriving DecidableEq

/--
The masters property (lines 389-399): if the cache is falsy, raise
NotImplementedError; otherwise return the cached list.
-/
def masters (s : MgrState) : Except PyException (List Child × MgrState) :=
  if py_truthy s.masters then
    Except.ok (s.masters.getD [], s)
  else
    Except.error PyException.notImplementedError

/--
The slaves property (lines 401-412): if the cache is falsy, recompute it
as the children that are managers, then return it.
-/
def slaves (s : MgrState) : List Child × MgrState :=
  if py_truthy s.slaves then
    (s.slaves.getD [], s)
  else
    let sl := s.children.filter (fun c => c.kind == NodeKind.manager)
    (sl, { s with slaves := some sl })

/-- An RTC return code as tested by the manager code: RTC_OK or anything else. -/
inductive RetCode where
  | rtcOk
  | rtcError
deriving DecidableEq

/-- The error raised by set_config_parameter, carrying its arguments. -/
inductive ConfigError where
  | failedToSetConfiguration (param value : String)
deriving DecidableEq

/--
Manager.set_config_parameter (lines 289-301): ret models the return code
of the remote set_configuration call.  On a non-OK code the
FailedToSetConfigurationError is raised with the state untouched; on
success only the configuration cache is forced to None.
-/
def set_config_parameter (s : MgrState) (param value : String) (ret : RetCode) :
    Except ConfigError Unit × MgrState :=
  if ret ≠ RetCode.rtcOk then
    (Except.error (ConfigError.failedToSetConfiguration param value), s)
  else
    (Except.ok (), { s with configuration := none })

/-! ## Manager._set_parent and the master/slave registration calls -/

/-- Errors raised by the master/slave registration helpers. -/
inductive MasterSlaveError where
  | failedToRemoveSlaveManager
  | failedToRemoveMasterManager
  | failedToAddMasterManager
  | failedToAddSlaveManager
deriving DecidableEq

/-- A reference to a parent node: its subtype discriminator and an identity. -/
structure ParentRef where
  is_manager : Bool
  id : Nat
deriving DecidableEq

/--
The return codes of the four remote registration calls _set_parent can
issue, in program order.
-/
structure SetParentCalls where
  remove_slave_ret : RetCode
  remove_master_ret : RetCode
  add_master_ret : RetCode
  add_slave_ret : RetCode
deriving DecidableEq

/-- Manager._remove_slave (lines 505-511). -/
def remove_slave (ret : RetCode) : Except MasterSlaveError Unit :=
  if ret ≠ RetCode.rtcOk then
    Except.error MasterSlaveError.failedToRemoveSlaveManager
  else Except.ok ()

/-- Manager._remove_master (lines 498-503). -/
def remove_master (ret : RetCode) : Except MasterSlaveError Unit :=
  if ret ≠ RetCode.rtcOk then
    Except.error MasterSlaveError.failedToRemoveMasterManager
  else Except.ok ()

/-- Manager._add_master (lines 417-422). -/
def add_master (ret : RetCode) : Except MasterSlaveError Unit :=
  if ret ≠ RetCode.rtcOk then
    Except.error MasterSlaveError.failedToAddMasterManager
  else Except.ok ()

/-- Manager._add_slave (lines 424-431). -/
def add_slave (ret : RetCode) : Except MasterSlaveError Unit :=
  if ret ≠ RetCode.rtcOk then
    Except.error MasterSlaveError.failedToAddSlaveManager
  else Except.ok ()

/--
Manager._set_parent (lines 513-525).  The local parent pointer is the
state; a raise from any of the four registration calls propagates with the
statements after it, including the pointer assignment, never run.  Returns
the raised error or unit, together with the parent pointer after the call.
-/
def set_parent (parent : Option ParentRef) (new_parent : ParentRef)
    (r : SetParentCalls) : Except MasterSlaveError Unit × Option ParentRef :=
  let detach : Except MasterSlaveError Unit :=
    match parent with
    | some p =>
      if p.is_manager then
        match remove_slave r.remove_slave_ret with
        | Except.error e => Except.error e
        | Except.ok _ => remove_master r.remove_master_ret
      else Except.ok ()
    | none => Except.ok ()
  match detach with
  | Except.error e => (Except.error e, parent)
  | Except.ok _ =>
    match add_master r.add_master_ret with
    | Except.error e => (Except.error e, parent)
    | Except.ok _ =>
      match add_slave r.add_slave_ret with
      | Except.error e => (Except.error e, parent)
      | Except.ok _ => (Except.ok (), some new_parent)

/--
The remote registrations _set_parent requires for the given starting
parent: the two detach calls only when the old parent exists and is a
manager, the two attach calls always.
-/
def required_ok (parent : Option ParentRef) (r : SetParentCalls) : Bool :=
  (match parent with
   | some p =>
     !p.is_manager ||
       (r.remove_slave_ret == RetCode.rtcOk && r.remove_master_ret == RetCode.rtcOk)
   | none => true) &&
  r.add_master_ret == RetCode.rtcOk && r.add_slave_ret == RetCode.rtcOk

end RtcTree

namespace RtcTree

/--
C2: for a Manager node, calling reparse twice in immediate succession with
the remote system returning the same answers both times yields the same
observable state as calling it once: the entire result (child list, so in
particular the child-name set, all cached views, warnings and error
outcome) is equal.  Child nodes are values in this embedding, so the
claim about object identity of fresh instances has no counterpart here;
the equality proved is exactly the observable-state equality claimed.
-/
theorem reparse_idempotent (s : MgrState) (rem : Remote) :
    reparse (reparse s rem).1 rem = reparse s rem := by
  obtain ⟨cr, mr⟩ := rem
  cases s
  cases cr <;> cases mr <;> rfl

/--
C9: after a successful set_config_parameter call (remote set_configuration
returned RTC_OK) the call returns normally, only the configuration cache
is reset to the unfetched sentinel, and the name, the child collection and
every other cached view (components, profile, factory profiles, loadable
and loaded module lists, masters, slaves) are unchanged.
-/
theorem set_config_frame (s : MgrState) (param value : String) :
    (set_config_parameter s param value RetCode.rtcOk).1 = Except.ok () ∧
    (set_config_parameter s param value RetCode.rtcOk).2.configuration = none ∧
    (set_config_parameter s param value RetCode.rtcOk).2.name = s.name ∧
    (set_config_parameter s param value RetCode.rtcOk).2.children = s.children ∧
    (set_config_parameter s param value RetCode.rtcOk).2.components = s.components ∧
    (set_config_parameter s param value RetCode.rtcOk).2.profile = s.profile ∧
    (set_config_parameter s param value RetCode.rtcOk).2.factory_profiles = s.factory_profiles ∧
    (set_config_parameter s param value RetCode.rtcOk).2.loadable_modules = s.loadable_modules ∧
    (set_config_parameter s param value RetCode.rtcOk).2.loaded_modules = s.loaded_modules ∧
    (set_config_parameter s param value RetCode.rtcOk).2.masters = s.masters ∧
    (set_config_parameter s param value RetCode.rtcOk).2.slaves = s.slaves := by
  cases s
  exact ⟨rfl, rfl, rfl, rfl, rfl, rfl, rfl, rfl, rfl, rfl, rfl⟩

/--
C10: every component child constructed while parsing the remote component
listing is named by appending the literal suffix .rtc to the instance_name
of the remote profile; in particular a remote component with instance name
C10 appears as a child named C10.rtc.
-/
theorem component_child_names (cs : List CompEntry) :
    (parse_component_children (CompsResult.ok cs)).1.map Child.name
        = cs.map (fun c => c.instance_name ++ ".rtc") ∧
    (parse_component_children (CompsResult.ok [⟨"C10"⟩])).1.map Child.name
        = ["C10.rtc"] := by
  constructor
  · simp [parse_component_children, List.map_map]
  · rfl

/--
C8: when the remote peer does not implement the slave-manager capability
(get_slave_managers raises CORBA.BAD_OPERATION), the reparse raises
nothing to the caller, yields zero manager-kind children, and the
slave-manager step emits nothing to stderr: any warning of the pass can
only be the component-listing one.
-/
theorem bad_operation_silent (s : MgrState) (cr : CompsResult) :
    (reparse s ⟨cr, MgrsResult.badOperation⟩).2.2 = none ∧
    ((reparse s ⟨cr, MgrsResult.badOperation⟩).1.children.all
        (fun c => c.kind == NodeKind.component)) = true ∧
    ((reparse s ⟨cr, MgrsResult.badOperation⟩).2.1.all
        (fun w => w == Warning.badParamComponents)) = true := by
  cases s
  cases cr <;>
    simp [reparse, parse, parse_children, parse_component_children,
      parse_manager_children, clear_caches, List.all_eq_true]

/--
C6, recording the code bug: after a reparse the slaves accessor returns
normally with exactly the manager-kind children, but the masters accessor
raises NotImplementedError instead of returning the list of master links:
_parse resets the masters cache to the unfetched sentinel and no code path
ever populates it, so the truthiness guard always fails, contradicting the
accessor docstring and the claim.
-/
theorem masters_raises_after_reparse (s : MgrState) (rem : Remote) :
    masters (reparse s rem).1 = Except.error PyException.notImplementedError ∧
    (slaves (reparse s rem).1).1
        = (reparse s rem).1.children.filter (fun c => c.kind == NodeKind.manager) := by
  obtain ⟨cr, mr⟩ := rem
  cases s
  cases cr <;> cases mr <;>
    simp [reparse, parse, parse_children, parse_component_children,
      parse_manager_children, clear_caches, masters, slaves, py_truthy]

/--
C1: in _set_parent, whenever any of the remote registration calls
(remove-slave on the old manager parent, remove-master on the node,
add-master, add-slave) raises, the error propagates to the caller and the
local parent pointer is unchanged; the call returns normally exactly when
every registration required for the given starting parent succeeded, and
only then is the local parent pointer updated to the new parent.
-/
theorem set_parent_atomic (parent : Option ParentRef) (np : ParentRef)
    (r : SetParentCalls) :
    (∀ e : MasterSlaveError, (set_parent parent np r).1 = Except.error e →
        (set_parent parent np r).2 = parent) ∧
    ((set_parent parent np r).1 = Except.ok () ↔ required_ok parent r = true) ∧
    ((set_parent parent np r).1 = Except.ok () →
        (set_parent parent np r).2 = some np) := by
  obtain ⟨a, b, c, d⟩ := r
  cases parent with
  | none =>
    cases a <;> cases b <;> cases c <;> cases d <;>
      simp [set_parent, remove_slave, remove_master, add_master, add_slave,
        required_ok]
  | some p =>
    obtain ⟨pm, pid⟩ := p
    cases pm <;> cases a <;> cases b <;> cases c <;> cases d <;>
      simp [set_parent, remove_slave, remove_master, add_master, add_slave,
        required_ok]

/--
Witness for C1: with a manager old parent and a failing remove-slave call
the parent pointer keeps its old value, and with all four calls succeeding
it becomes the new parent.
-/
theorem set_parent_atomic_witness :
    (set_parent (some ⟨true, 0⟩) ⟨true, 1⟩
        ⟨RetCode.rtcError, RetCode.rtcOk, RetCode.rtcOk, RetCode.rtcOk⟩).2
      = some ⟨true, 0⟩ ∧
    (set_parent (some ⟨true, 0⟩) ⟨true, 1⟩
        ⟨RetCode.rtcOk, RetCode.rtcOk, RetCode.rtcOk, RetCode.rtcOk⟩).2
      = some ⟨true, 1⟩ :=
  ⟨(set_parent_atomic (some ⟨true, 0⟩) ⟨true, 1⟩ _).1
      MasterSlaveError.failedToRemoveSlaveManager rfl,
   (set_parent_atomic (some ⟨true, 0⟩) ⟨true, 1⟩ _).2.2 rfl⟩

/--
C5 counterexample: a slave entry whose profile fetch fails with a
connection-refused transport failure is not retained or marked as a
no-data zombie child node - the child list built from a listing holding
only such an entry is empty; the code merely prints a zombie warning to
stderr and raises nothing.
-/
theorem zombie_slave_cex :
    (parse_manager_children "M"
        (MgrsResult.ok [⟨ProfileResult.transientConnectFailed⟩])).1 = [] ∧
    (parse_manager_children "M"
        (MgrsResult.ok [⟨ProfileResult.transientConnectFailed⟩])).2
      = ([Warning.zombieSlave "M"], none) := by
  constructor <;> rfl

/--
Helper: the slave-manager loop raises only when some listed entry fails
with a TRANSIENT fault whose minor code is not ConnectFailed.
-/
theorem loop_no_error (n : String) (ms : List SlaveEntry) (i : Nat)
    (h : ∀ m ∈ ms, m.get_profile ≠ ProfileResult.transientOther) :
    (parse_manager_loop n ms i).2.2 = none := by
  induction ms generalizing i with
  | nil => rfl
  | cons m rest ih =>
    have hm := h m (List.mem_cons_self m rest)
    have hrest : ∀ x ∈ rest, x.get_profile ≠ ProfileResult.transientOther :=
      fun x hx => h x (List.mem_cons_of_mem m hx)
    cases hp : m.get_profile with
    | transientConnectFailed => simp [parse_manager_loop, hp, ih i hrest]
    | transientOther => exact absurd hp hm
    | ok props =>
      cases hl : List.lookup "name" props <;>
        simp [parse_manager_loop, hp, hl, ih _ hrest]

/--
Helper: every child built by the slave-manager loop is a manager node.
-/
theorem loop_all_manager (n : String) (ms : List SlaveEntry) (i : Nat) :
    ∀ c ∈ (parse_manager_loop n ms i).1, c.kind = NodeKind.manager := by
  induction ms generalizing i with
  | nil => intro c hc; simp [parse_manager_loop] at hc
  | cons m rest ih =>
    intro c hc
    cases hp : m.get_profile with
    | transientConnectFailed =>
      simp only [parse_manager_loop, hp] at hc
      exact ih i c hc
    | transientOther => simp [parse_manager_loop, hp] at hc
    | ok props =>
      cases hl : List.lookup "name" props with
      | some nm =>
        simp only [parse_manager_loop, hp, hl, List.mem_cons] at hc
        rcases hc with rfl | hc
        · rfl
        · exact ih i c hc
      | none =>
        simp only [parse_manager_loop, hp, hl, List.mem_cons] at hc
        rcases hc with rfl | hc
        · rfl
        · exact ih (i + 1) c hc

/--
C7: when the remote component listing fails with a parameter-mismatch
fault (CORBA.BAD_PARAM) during a reparse, the reparse does not raise to
the caller and the component contribution is empty: component-children
parsing returns normally and every child of the pass comes from the
slave-manager listing.
-/
theorem bad_param_reparse_recovers (s : MgrState) (ms : List SlaveEntry)
    (h : ∀ m ∈ ms, m.get_profile ≠ ProfileResult.transientOther) :
    (reparse s ⟨CompsResult.badParam, MgrsResult.ok ms⟩).2.2 = none ∧
    ((reparse s ⟨CompsResult.badParam, MgrsResult.ok ms⟩).1.children.all
        (fun c => c.kind == NodeKind.manager)) = true := by
  constructor
  · simpa [reparse, parse, parse_children, parse_component_children,
      parse_manager_children, clear_caches] using loop_no_error s.name ms 0 h
  · simp only [reparse, parse, parse_children, parse_component_children,
      parse_manager_children, clear_caches, List.all_eq_true, beq_iff_eq]
    simpa using loop_all_manager s.name ms 0

/--
Witness for C7 at a concrete state and listing holding one unreachable and
one reachable slave entry.
-/
theorem bad_param_reparse_recovers_witness :
    (reparse ⟨"M", [], none, none, none, none, none, none, none, none⟩
        ⟨CompsResult.badParam,
         MgrsResult.ok [⟨ProfileResult.transientConnectFailed⟩,
                        ⟨ProfileResult.ok []⟩]⟩).2.2 = none ∧
    ((reparse ⟨"M", [], none, none, none, none, none, none, none, none⟩
        ⟨CompsResult.badParam,
         MgrsResult.ok [⟨ProfileResult.transientConnectFailed⟩,
                        ⟨ProfileResult.ok []⟩]⟩).1.children.all
        (fun c => c.kind == NodeKind.manager)) = true :=
  bad_param_reparse_recovers
    ⟨"M", [], none, none, none, none, none, none, none, none⟩
    [⟨ProfileResult.transientConnectFailed⟩, ⟨ProfileResult.ok []⟩]
    (by decide)

/--
Helper for C4, generalising the synthetic-name counter: in a listing
ms1 ++ e :: ms2 started at counter i, where no entry of ms1 aborts the
loop and the entry e is successfully profiled but unnamed, the child built
for e appears at position okCount ms1 of the output and carries the
synthetic name slave(i + unnamedCount ms1).
-/
theorem loop_unnamed_get (n : String) (e : SlaveEntry)
    (props : List (String × String)) (ms2 : List SlaveEntry)
    (hok : e.get_profile = ProfileResult.ok props)
    (hun : List.lookup "name" props = none) :
    ∀ (ms1 : List SlaveEntry) (i : Nat),
      (∀ m ∈ ms1, m.get_profile ≠ ProfileResult.transientOther) →
      ((parse_manager_loop n (ms1 ++ e :: ms2) i).1)[okCount ms1]?
        = some ⟨"slave" ++ Nat.repr (i + unnamedCount ms1), NodeKind.manager⟩ := by
  intro ms1
  induction ms1 with
  | nil =>
    intro i h
    simp [parse_manager_loop, hok, hun, okCount, unnamedCount]
  | cons m rest ih =>
    intro i h
    have hm := h m (List.mem_cons_self m rest)
    have hrest : ∀ x ∈ rest, x.get_profile ≠ ProfileResult.transientOther :=
      fun x hx => h x (List.mem_cons_of_mem m hx)
    cases hp : m.get_profile with
    | transientConnectFailed =>
      simpa [parse_manager_loop, hp, okCount, unnamedCount] using ih i hrest
    | transientOther => exact absurd hp hm
    | ok props2 =>
      cases hl : List.lookup "name" props2 with
      | some nm =>
        simpa [parse_manager_loop, hp, hl, okCount, unnamedCount] using ih i hrest
      | none =>
        have hrec := ih (i + 1) hrest
        simp [parse_manager_loop, hp, hl, okCount, unnamedCount]
        rw [show i + (unnamedCount rest + 1) = (i + 1) + unnamedCount rest by omega]
        exact hrec

/--
C4: a successfully profiled slave entry lacking a name profile key is
assigned the synthetic name slaveN, where N is a zero-based counter
incremented only for such unnamed entries, in listing order: for a listing
ms1 ++ e :: ms2 with e unnamed, the child built for e sits at output
position okCount ms1 and N equals unnamedCount ms1, the number of earlier
unnamed successfully profiled entries, regardless of how many named
entries appear among them.
-/
theorem slave_synthetic_naming (n : String) (ms1 ms2 : List SlaveEntry)
    (e : SlaveEntry) (props : List (String × String))
    (hok : e.get_profile = ProfileResult.ok props)
    (hun : List.lookup "name" props = none)
    (h : ∀ m ∈ ms1, m.get_profile ≠ ProfileResult.transientOther) :
    ((parse_manager_children n (MgrsResult.ok (ms1 ++ e :: ms2))).1)[okCount ms1]?
      = some ⟨"slave" ++ Nat.repr (unnamedCount ms1), NodeKind.manager⟩ := by
  simpa [parse_manager_children] using loop_unnamed_get n e props ms2 hok hun ms1 0 h

/--
Witness for C4: in a listing of a named entry, an unreachable entry and
two unnamed entries, the second unnamed entry is named slave1 even though
two entries with other outcomes precede it.
-/
theorem slave_synthetic_naming_witness :
    (parse_manager_children "M" (MgrsResult.ok
        [⟨ProfileResult.ok [("name", "A")]⟩,
         ⟨ProfileResult.transientConnectFailed⟩,
         ⟨ProfileResult.ok []⟩,
         ⟨ProfileResult.ok []⟩])).1[2]?
      = some ⟨"slave1", NodeKind.manager⟩ := by
  have h := slave_synthetic_naming "M"
      [⟨ProfileResult.ok [("name", "A")]⟩,
       ⟨ProfileResult.transientConnectFailed⟩,
       ⟨ProfileResult.ok []⟩]
      [] ⟨ProfileResult.ok []⟩ [] rfl rfl (by decide)
  exact h

/--
Helper for C5: removing the connection-refused entries from a listing
changes neither the children built nor the error outcome of the
slave-manager loop.
-/
theorem loop_filter_zombies (n : String) (ms : List SlaveEntry) (i : Nat) :
    (parse_manager_loop n (ms.filter (fun m =>
        match m.get_profile with
        | ProfileResult.transientConnectFailed => false
        | _ => true)) i).1
      = (parse_manager_loop n ms i).1 ∧
    (parse_manager_loop n (ms.filter (fun m =>
        match m.get_profile with
        | ProfileResult.transientConnectFailed => false
        | _ => true)) i).2.2
      = (parse_manager_loop n ms i).2.2 := by
  induction ms generalizing i with
  | nil => exact ⟨rfl, rfl⟩
  | cons m rest ih =>
    cases hp : m.get_profile with
    | transientConnectFailed =>
      simpa [List.filter_cons, hp, parse_manager_loop] using ih i
    | transientOther =>
      simp [List.filter_cons, hp, parse_manager_loop]
    | ok props =>
      cases hl : List.lookup "name" props <;>
        simpa [List.filter_cons, hp, hl, parse_manager_loop] using ih _

/--
C5 amended: a slave entry whose profile fetch fails with a
connection-refused transport failure is skipped - the manager prints a
zombie warning to stderr, builds no child for it, and continues with the
remaining entries, so the children and the error outcome of the reparse
equal those of the same listing with the unreachable entries absent; in
particular such a failure never aborts the whole reparse.
-/
theorem zombie_slave_skipped (s : MgrState) (cr : CompsResult)
    (ms : List SlaveEntry) :
    (reparse s ⟨cr, MgrsResult.ok (ms.filter (fun m =>
        match m.get_profile with
        | ProfileResult.transientConnectFailed => false
        | _ => true))⟩).1.children
      = (reparse s ⟨cr, MgrsResult.ok ms⟩).1.children ∧
    (reparse s ⟨cr, MgrsResult.ok (ms.filter (fun m =>
        match m.get_profile with
        | ProfileResult.transientConnectFailed => false
        | _ => true))⟩).2.2
      = (reparse s ⟨cr, MgrsResult.ok ms⟩).2.2 := by
  obtain ⟨h1, h2⟩ := loop_filter_zombies s.name ms 0
  constructor <;>
    simp [reparse, parse, parse_children, parse_manager_children,
      clear_caches, h1, h2]


/--
Helper: two prefixes of the same string are comparable.
-/
theorem isPrefixOf_total (a : List Char) : ∀ (p q : List Char),
    p.isPrefixOf a = true → q.isPrefixOf a = true →
    p.isPrefixOf q = true ∨ q.isPrefixOf p = true := by
  induction a with
  | nil =>
    intro p q hp hq
    cases p with
    | nil => left; cases q <;> rfl
    | cons x xs => simp [List.isPrefixOf] at hp
  | cons c cs ih =>
    intro p q hp hq
    cases p with
    | nil => left; cases q <;> rfl
    | cons x xs =>
      cases q with
      | nil => right; rfl
      | cons y ys =>
        simp only [List.isPrefixOf, Bool.and_eq_true, beq_iff_eq] at hp hq ⊢
        obtain ⟨hx, hp2⟩ := hp
        obtain ⟨hy, hq2⟩ := hq
        subst hx
        subst hy
        rcases ih xs ys hp2 hq2 with h | h
        · left; exact ⟨rfl, h⟩
        · right; exact ⟨rfl, h⟩

/--
Helper: a string incomparable with a known prefix of the address is not
itself a prefix of the address.
-/
theorem isPrefixOf_false_of_between (a p q : List Char)
    (hq : q.isPrefixOf a = true) (h1 : p.isPrefixOf q = false)
    (h2 : q.isPrefixOf p = false) : p.isPrefixOf a = false := by
  cases hpa : p.isPrefixOf a with
  | false => rfl
  | true =>
    rcases isPrefixOf_total a p q hpa hq with h | h
    · rw [h1] at h; exact absurd h (by simp)
    · rw [h2] at h; exact absurd h (by simp)

/--
C3 counterexample: the claim states that the matched protocol prefix is
replaced, but Python str.replace replaces every occurrence of the token:
on the address iiop:iiop:x the code does not return
corbaloc:iiop:iiop:x/NameService as the claim requires; it returns
corbaloc:iiop:corbaloc:iiop:x/NameService.
-/
theorem parse_address_claim_cex :
    parse_address "iiop:iiop:x".data ≠ "corbaloc:iiop:iiop:x/NameService".data ∧
    parse_address "iiop:iiop:x".data
      = "corbaloc:iiop:corbaloc:iiop:x/NameService".data := by
  constructor
  · decide
  · decide

/--
C3 amended: the address resolution function is pure and total over
strings; for every address beginning with one of the protocol tokens of
protocols_m_str it returns the address with every occurrence of that
token (not only the leading one) replaced by the corresponding corbaloc
form and /NameService appended; for every address beginning with one of
the web schemes of protocols_v_str it returns the address with
NameService appended after a hash sign; for every other address it
returns corbaloc:: followed by the address and /NameService.
-/
theorem parse_address_spec (addr : List Char) :
    (∀ k v, (k, v) ∈ protocols_m_str → k.isPrefixOf addr = true →
        parse_address addr = replaceAll k v addr ++ "/NameService".data) ∧
    (∀ p, p ∈ protocols_v_str → p.isPrefixOf addr = true →
        parse_address addr = addr ++ "#NameService".data) ∧
    ((∀ k v, (k, v) ∈ protocols_m_str → k.isPrefixOf addr = false) →
     (∀ p, p ∈ protocols_v_str → p.isPrefixOf addr = false) →
        parse_address addr = "corbaloc::".data ++ addr ++ "/NameService".data) := by
  refine ⟨?_, ?_, ?_⟩
  · intro k v hmem hk
    simp only [protocols_m_str, List.mem_cons, List.not_mem_nil, or_false] at hmem
    rcases hmem with h | h | h | h | h <;>
      (rw [Prod.mk.injEq] at h; obtain ⟨rfl, rfl⟩ := h)
    · simp [parse_address, find_protocol, protocols_m_str, hk]
    · have f1 := isPrefixOf_false_of_between addr "iiop:".data "ssliop:".data hk
        (by decide) (by decide)
      simp [parse_address, find_protocol, protocols_m_str, hk, f1]
    · have f1 := isPrefixOf_false_of_between addr "iiop:".data "diop:".data hk
        (by decide) (by decide)
      have f2 := isPrefixOf_false_of_between addr "ssliop:".data "diop:".data hk
        (by decide) (by decide)
      simp [parse_address, find_protocol, protocols_m_str, hk, f1, f2]
    · have f1 := isPrefixOf_false_of_between addr "iiop:".data "shmiop:".data hk
        (by decide) (by decide)
      have f2 := isPrefixOf_false_of_between addr "ssliop:".data "shmiop:".data hk
        (by decide) (by decide)
      have f3 := isPrefixOf_false_of_between addr "diop:".data "shmiop:".data hk
        (by decide) (by decide)
      simp [parse_address, find_protocol, protocols_m_str, hk, f1, f2, f3]
    · have f1 := isPrefixOf_false_of_between addr "iiop:".data "htiop:".data hk
        (by decide) (by decide)
      have f2 := isPrefixOf_false_of_between addr "ssliop:".data "htiop:".data hk
        (by decide) (by decide)
      have f3 := isPrefixOf_false_of_between addr "diop:".data "htiop:".data hk
        (by decide) (by decide)
      have f4 := isPrefixOf_false_of_between addr "shmiop:".data "htiop:".data hk
        (by decide) (by decide)
      simp [parse_address, find_protocol, protocols_m_str, hk, f1, f2, f3, f4]
  · intro p hmem hp
    simp only [protocols_v_str, List.mem_cons, List.not_mem_nil, or_false] at hmem
    have m1 := isPrefixOf_false_of_between addr "iiop:".data p hp
    have m2 := isPrefixOf_false_of_between addr "ssliop:".data p hp
    have m3 := isPrefixOf_false_of_between addr "diop:".data p hp
    have m4 := isPrefixOf_false_of_between addr "shmiop:".data p hp
    have m5 := isPrefixOf_false_of_between addr "htiop:".data p hp
    rcases hmem with rfl | rfl | rfl | rfl
    · simp [parse_address, find_protocol, protocols_m_str, find_v_protocol,
        protocols_v_str, hp, m1 (by decide) (by decide), m2 (by decide) (by decide),
        m3 (by decide) (by decide), m4 (by decide) (by decide),
        m5 (by decide) (by decide)]
    · have w1 := isPrefixOf_false_of_between addr "http://".data "https://".data hp
        (by decide) (by decide)
      simp [parse_address, find_protocol, protocols_m_str, find_v_protocol,
        protocols_v_str, hp, w1, m1 (by decide) (by decide), m2 (by decide) (by decide),
        m3 (by decide) (by decide), m4 (by decide) (by decide),
        m5 (by decide) (by decide)]
    · have w1 := isPrefixOf_false_of_between addr "http://".data "ws://".data hp
        (by decide) (by decide)
      have w2 := isPrefixOf_false_of_between addr "https://".data "ws://".data hp
        (by decide) (by decide)
      simp [parse_address, find_protocol, protocols_m_str, find_v_protocol,
        protocols_v_str, hp, w1, w2, m1 (by decide) (by decide),
        m2 (by decide) (by decide), m3 (by decide) (by decide),
        m4 (by decide) (by decide), m5 (by decide) (by decide)]
    · have w1 := isPrefixOf_false_of_between addr "http://".data "wss://".data hp
        (by decide) (by decide)
      have w2 := isPrefixOf_false_of_between addr "https://".data "wss://".data hp
        (by decide) (by decide)
      have w3 := isPrefixOf_false_of_between addr "ws://".data "wss://".data hp
        (by decide) (by decide)
      simp [parse_address, find_protocol, protocols_m_str, find_v_protocol,
        protocols_v_str, hp, w1, w2, w3, m1 (by decide) (by decide),
        m2 (by decide) (by decide), m3 (by decide) (by decide),
        m4 (by decide) (by decide), m5 (by decide) (by decide)]
  · intro hm hv
    have f1 := hm "iiop:".data "corbaloc:iiop:".data (by simp [protocols_m_str])
    have f2 := hm "ssliop:".data "corbaloc:ssliop:".data (by simp [protocols_m_str])
    have f3 := hm "diop:".data "corbaloc:diop:".data (by simp [protocols_m_str])
    have f4 := hm "shmiop:".data "corbaloc:shmiop:".data (by simp [protocols_m_str])
    have f5 := hm "htiop:".data "corbaloc:htiop:".data (by simp [protocols_m_str])
    have g1 := hv "http://".data (by simp [protocols_v_str])
    have g2 := hv "https://".data (by simp [protocols_v_str])
    have g3 := hv "ws://".data (by simp [protocols_v_str])
    have g4 := hv "wss://".data (by simp [protocols_v_str])
    simp [parse_address, find_protocol, protocols_m_str, find_v_protocol,
      protocols_v_str, f1, f2, f3, f4, f5, g1, g2, g3, g4]

/--
Witness for C3 on the three addresses named by the claim sources.
-/
theorem parse_address_spec_witness :
    parse_address "iiop:localhost:2809".data
      = "corbaloc:iiop:localhost:2809/NameService".data ∧
    parse_address "http://host/path".data
      = "http://host/path#NameService".data ∧
    parse_address "myhost".data = "corbaloc::myhost/NameService".data := by
  refine ⟨?_, ?_, ?_⟩
  · have h := (parse_address_spec "iiop:localhost:2809".data).1
      "iiop:".data "corbaloc:iiop:".data (by decide) (by decide)
    rw [h]
    decide
  · have h := (parse_address_spec "http://host/path".data).2.1
      "http://".data (by decide) (by decide)
    rw [h]
    decide
  · have h := (parse_address_spec "myhost".data).2.2
      (by intro k v hkv; fin_cases hkv <;> decide)
      (by intro p hp; fin_cases hp <;> decide)
    rw [h]
    decide

end RtcTree
